import Mathlib

/-!
Verification of the derived-status logic of the DB_Design_Devman repository.

The repository derives lifecycle statuses for accruals, contracts and
education threads from date/timestamp fields at query time (SQL `Case`
annotations) or on attribute access (Python properties).  We embed those
computations shallowly: timestamps and dates become `Int` (a point on a
single time line; the unit is days, so that the 30-day overdue threshold
is the constant 30), nullable columns become `Option Int`, and SQL
comparison lookups (`__lt`, `__gt`, `__lte`, `__gte`), which evaluate to
FALSE when the column is NULL, become the `opt*` helpers below.
-/

/-- SQL semantics of `column < value`: NULL compares false. -/
def optLt (o : Option Int) (v : Int) : Bool :=
  match o with
  | some x => x < v
  | none => false

/-- SQL semantics of `column > value`: NULL compares false. -/
def optGt (o : Option Int) (v : Int) : Bool :=
  match o with
  | some x => v < x
  | none => false

/-- SQL semantics of `column <= value`: NULL compares false. -/
def optLe (o : Option Int) (v : Int) : Bool :=
  match o with
  | some x => x ≤ v
  | none => false

/-- SQL semantics of `column >= value`: NULL compares false. -/
def optGe (o : Option Int) (v : Int) : Bool :=
  match o with
  | some x => v ≤ x
  | none => false

/-- The 30-day overdue threshold used both by `Accrual.status`
(`timedelta(days=30)`) and by the manager's query filters
(`Now() - DurationField(default='30 days')`). -/
def thirtyDays : Int := 30

/-- The Python test `(now - self.confirmed_at) > timedelta(days=30)` on a
nullable timestamp: false when the timestamp is absent. -/
def exceedsThirtyDays (now : Int) (o : Option Int) : Bool :=
  match o with
  | some c => thirtyDays < now - c
  | none => false

/-- `Accrual` model (src/dataverse_contracts/models/accruals.py).
`confirmed_at` and `paid_at` are nullable datetime columns; `amount` is a
decimal (scaled to an integer here); other columns play no part in the
status logic. -/
structure Accrual where
  contract_id : Nat
  amount : Int
  confirmed_at : Option Int
  paid_at : Option Int
deriving DecidableEq, Repr

/-- `Accrual.status` (accruals.py lines 118-131): the on-access computed
property.  `paid` when `paid_at` is truthy; else, when `confirmed_at` is
truthy, `overdue` if confirmed more than 30 days before `now`, otherwise
`confirmed`; else `pending`. -/
def Accrual.status (a : Accrual) (now : Int) : String :=
  match a.paid_at with
  | some _ => "paid"
  | none =>
    match a.confirmed_at with
    | some c => if thirtyDays < now - c then "overdue" else "confirmed"
    | none => "pending"

/-- `AccrualManager.annotate_status` (accruals.py lines 46-61): the SQL
`Case` expression computing `status_annotation`, with its branches in
source order. -/
def annotate_status (a : Accrual) (now : Int) : String :=
  if a.paid_at.isSome then "paid"
  else if a.confirmed_at.isSome && a.paid_at.isNone
      && optLt a.confirmed_at (now - thirtyDays) then "overdue"
  else if a.confirmed_at.isSome && a.paid_at.isNone then "confirmed"
  else "pending"

/-- `AccrualManager.by_status` (accruals.py lines 30-44), read as the
membership predicate of the returned queryset: each known status maps to
its `Q` filter, any other string yields `self.none()` (the empty
queryset). -/
def by_status (status : String) (a : Accrual) (now : Int) : Bool :=
  if status = "paid" then a.paid_at.isSome
  else if status = "confirmed" then a.confirmed_at.isSome && a.paid_at.isNone
  else if status = "overdue" then
    optLt a.confirmed_at (now - thirtyDays) && a.paid_at.isNone
  else if status = "pending" then a.confirmed_at.isNone && a.paid_at.isNone
  else false

/-- A concrete accrual used by witnesses: confirmed 3 days before time 10,
unpaid. -/
def sampleAccrual : Accrual :=
  { contract_id := 1, amount := 5000, confirmed_at := some 7, paid_at := none }

/-- An unpaid accrual confirmed at time 0; at time 100 it is more than 30
days old, hence `overdue`. -/
def overdueAccrual : Accrual :=
  { contract_id := 2, amount := 1200, confirmed_at := some 0, paid_at := none }

/-- C1: the on-access `Accrual.status`, at current time `now`, is `paid`
when `paid_at` is set (regardless of `confirmed_at`); else `overdue` when
`confirmed_at` is set, `paid_at` unset and `now - confirmed_at` exceeds 30
days; else `confirmed` when `confirmed_at` is set; else `pending`. -/
theorem C1_accrual_status_rules (a : Accrual) (now : Int) :
    (a.paid_at.isSome = true → a.status now = "paid") ∧
    (a.confirmed_at.isSome = true → a.paid_at = none →
      exceedsThirtyDays now a.confirmed_at = true → a.status now = "overdue") ∧
    (a.confirmed_at.isSome = true → a.paid_at = none →
      exceedsThirtyDays now a.confirmed_at = false → a.status now = "confirmed") ∧
    (a.confirmed_at = none → a.paid_at = none → a.status now = "pending") := by
  rcases a with ⟨cid, amt, c, p⟩
  refine ⟨?_, ?_, ?_, ?_⟩
  · intro hp
    cases p with
    | none => simp at hp
    | some t => rfl
  · intro hc hp hov
    cases p with
    | some t => simp at hp
    | none =>
      cases c with
      | none => simp at hc
      | some cv =>
        simp only [exceedsThirtyDays, decide_eq_true_eq] at hov
        simp only [Accrual.status]
        rw [if_pos hov]
  · intro hc hp hov
    cases p with
    | some t => simp at hp
    | none =>
      cases c with
      | none => simp at hc
      | some cv =>
        simp only [exceedsThirtyDays, decide_eq_false_iff_not] at hov
        simp only [Accrual.status]
        rw [if_neg hov]
  · intro hc hp
    cases p with
    | some t => simp at hp
    | none =>
      cases c with
      | some cv => simp at hc
      | none => rfl

/-- Witness for C1 at `overdueAccrual` and time 100. -/
theorem C1_witness :
    (overdueAccrual.paid_at.isSome = true → overdueAccrual.status 100 = "paid") ∧
    (overdueAccrual.confirmed_at.isSome = true → overdueAccrual.paid_at = none →
      exceedsThirtyDays 100 overdueAccrual.confirmed_at = true →
      overdueAccrual.status 100 = "overdue") ∧
    (overdueAccrual.confirmed_at.isSome = true → overdueAccrual.paid_at = none →
      exceedsThirtyDays 100 overdueAccrual.confirmed_at = false →
      overdueAccrual.status 100 = "confirmed") ∧
    (overdueAccrual.confirmed_at = none → overdueAccrual.paid_at = none →
      overdueAccrual.status 100 = "pending") :=
  C1_accrual_status_rules overdueAccrual 100

/-- C4: at any fixed evaluation time, the query-time annotation
`AccrualManager.annotate_status` and the on-access property
`Accrual.status` compute the same status. -/
theorem C4_annotation_matches_property (a : Accrual) (now : Int) :
    annotate_status a now = a.status now := by
  rcases a with ⟨cid, amt, c, p⟩
  cases p with
  | some t => rfl
  | none =>
    cases c with
    | none => rfl
    | some cv =>
      by_cases hc : thirtyDays < now - cv
      · have h1 : optLt (some cv) (now - thirtyDays) = true := by
          simp only [optLt, decide_eq_true_eq]
          omega
        simp [annotate_status, Accrual.status, h1, hc]
      · have h1 : optLt (some cv) (now - thirtyDays) = false := by
          simp only [optLt, decide_eq_false_iff_not]
          omega
        simp [annotate_status, Accrual.status, h1, hc]

/-- C5 counterexample: `overdueAccrual` at time 100 has derived status
`overdue`, yet `by_status('confirmed')` returns it, because the
`confirmed` filter `Q(confirmed_at__isnull=False, paid_at__isnull=True)`
does not exclude confirmations older than 30 days. -/
theorem C5_counterexample :
    by_status "confirmed" overdueAccrual 100 = true ∧
    overdueAccrual.status 100 = "overdue" ∧
    overdueAccrual.status 100 ≠ "confirmed" := by
  decide

/-- C5 amended: `by_status` matches the derived status exactly for
`paid`, `overdue` and `pending`, while `by_status('confirmed')` returns
exactly the accruals whose derived status is `confirmed` OR `overdue`
(those with `confirmed_at` set and `paid_at` unset). -/
theorem C5_by_status_amended (a : Accrual) (now : Int) :
    (by_status "paid" a now = true ↔ a.status now = "paid") ∧
    (by_status "overdue" a now = true ↔ a.status now = "overdue") ∧
    (by_status "pending" a now = true ↔ a.status now = "pending") ∧
    (by_status "confirmed" a now = true ↔
      (a.status now = "confirmed" ∨ a.status now = "overdue")) := by
  rcases a with ⟨cid, amt, c, p⟩
  cases p with
  | some t =>
    refine ⟨?_, ?_, ?_, ?_⟩ <;> simp [by_status, Accrual.status, optLt]
  | none =>
    cases c with
    | none =>
      refine ⟨?_, ?_, ?_, ?_⟩ <;> simp [by_status, Accrual.status, optLt]
    | some cv =>
      by_cases hc : thirtyDays < now - cv
      · have h1 : optLt (some cv) (now - thirtyDays) = true := by
          simp only [optLt, decide_eq_true_eq]
          omega
        refine ⟨?_, ?_, ?_, ?_⟩ <;>
          simp [by_status, Accrual.status, h1, hc]
      · have h1 : optLt (some cv) (now - thirtyDays) = false := by
          simp only [optLt, decide_eq_false_iff_not]
          omega
        refine ⟨?_, ?_, ?_, ?_⟩ <;>
          simp [by_status, Accrual.status, h1, hc]

/-- Closed instance of the amended C5 at `sampleAccrual`, time 10. -/
theorem C5_witness :
    (by_status "paid" sampleAccrual 10 = true ↔ sampleAccrual.status 10 = "paid") ∧
    (by_status "overdue" sampleAccrual 10 = true ↔ sampleAccrual.status 10 = "overdue") ∧
    (by_status "pending" sampleAccrual 10 = true ↔ sampleAccrual.status 10 = "pending") ∧
    (by_status "confirmed" sampleAccrual 10 = true ↔
      (sampleAccrual.status 10 = "confirmed" ∨ sampleAccrual.status 10 = "overdue")) :=
  C5_by_status_amended sampleAccrual 10

/-- C9: for any status string outside the four known keys, `by_status`
falls through to `self.none()`: no accrual is returned and no error is
raised. -/
theorem C9_unknown_status_empty (s : String) (h1 : s ≠ "paid")
    (h2 : s ≠ "confirmed") (h3 : s ≠ "overdue") (h4 : s ≠ "pending")
    (a : Accrual) (now : Int) :
    by_status s a now = false := by
  simp [by_status, h1, h2, h3, h4]

/-- Witness for C9 at the unknown key `draft`. -/
theorem C9_witness : by_status "draft" sampleAccrual 10 = false :=
  C9_unknown_status_empty "draft" (by decide) (by decide) (by decide)
    (by decide) sampleAccrual 10

/-- One accrual together with the current clock value: the state on which
the accrual lifecycle evolves. -/
structure AccState where
  accrual : Accrual
  now : Int
deriving DecidableEq, Repr

/-- Derived status of the state via `Accrual.status`. -/
def AccState.status (s : AccState) : String := s.accrual.status s.now

/-- The evolution steps the accrual lifecycle allows: setting a
previously-unset `confirmed_at` or `paid_at`, or advancing the clock.
No step unsets a timestamp or moves the clock backwards. -/
inductive AccStep : AccState → AccState → Prop
  | setConfirmed (a : Accrual) (now t : Int) (h : a.confirmed_at = none) :
      AccStep ⟨a, now⟩ ⟨{ a with confirmed_at := some t }, now⟩
  | setPaid (a : Accrual) (now t : Int) (h : a.paid_at = none) :
      AccStep ⟨a, now⟩ ⟨{ a with paid_at := some t }, now⟩
  | tick (a : Accrual) (now d : Int) (h : 0 ≤ d) :
      AccStep ⟨a, now⟩ ⟨a, now + d⟩

/-- Position of a status in the progression
pending < confirmed < overdue < paid. -/
def statusRank (st : String) : Nat :=
  if st = "pending" then 0
  else if st = "confirmed" then 1
  else if st = "overdue" then 2
  else 3

lemma statusRank_le_three (st : String) : statusRank st ≤ 3 := by
  unfold statusRank
  split_ifs <;> omega

lemma accStep_mono {s s' : AccState} (h : AccStep s s') :
    statusRank s.status ≤ statusRank s'.status ∧
    (s.status = "paid" → s'.status = "paid") := by
  cases h with
  | setConfirmed a now t h =>
    rcases a with ⟨cid, amt, c, p⟩
    simp only at h
    subst h
    cases p with
    | some pt => exact ⟨le_refl _, fun _ => rfl⟩
    | none =>
      constructor
      · simp [AccState.status, Accrual.status, statusRank]
      · intro hp
        simp [AccState.status, Accrual.status] at hp
  | setPaid a now t h =>
    rcases a with ⟨cid, amt, c, p⟩
    simp only at h
    subst h
    constructor
    · have : AccState.status ⟨⟨cid, amt, c, some t⟩, now⟩ = "paid" := rfl
      rw [this]
      exact le_trans (statusRank_le_three _) (by simp [statusRank])
    · intro hp
      rfl
  | tick a now d h =>
    rcases a with ⟨cid, amt, c, p⟩
    cases p with
    | some pt => exact ⟨le_refl _, fun _ => rfl⟩
    | none =>
      cases c with
      | none => exact ⟨le_refl _, fun hp => by simp [AccState.status, Accrual.status] at hp⟩
      | some cv =>
        constructor
        · by_cases h1 : thirtyDays < now - cv
          · have h2 : thirtyDays < now + d - cv := by omega
            simp [AccState.status, Accrual.status, h1, h2]
          · simp only [AccState.status, Accrual.status, if_neg h1]
            by_cases h2 : thirtyDays < now + d - cv <;>
              simp [h2, statusRank]
        · intro hp
          simp only [AccState.status, Accrual.status] at hp
          split at hp <;> simp_all

/-- C7: along any finite sequence of allowed steps (setting a
previously-unset timestamp or advancing the clock), the derived accrual
status never moves backward in the order
pending < confirmed < overdue < paid, and once `paid` it stays `paid`. -/
theorem C7_status_monotone {s s' : AccState}
    (h : Relation.ReflTransGen AccStep s s') :
    statusRank s.status ≤ statusRank s'.status ∧
    (s.status = "paid" → s'.status = "paid") := by
  induction h with
  | refl => exact ⟨le_refl _, fun hp => hp⟩
  | tail hab hbc ih =>
    rcases accStep_mono hbc with ⟨h1, h2⟩
    exact ⟨le_trans ih.1 h1, fun hp => h2 (ih.2 hp)⟩

/-- Witness for C7: one clock advance of 40 days on `sampleAccrual`. -/
theorem C7_witness :
    statusRank (AccState.status ⟨sampleAccrual, 10⟩) ≤
      statusRank (AccState.status ⟨sampleAccrual, 10 + 40⟩) ∧
    (AccState.status ⟨sampleAccrual, 10⟩ = "paid" →
      AccState.status ⟨sampleAccrual, 10 + 40⟩ = "paid") :=
  C7_status_monotone
    (Relation.ReflTransGen.single (AccStep.tick sampleAccrual 10 40 (by decide)))

/-- `BaseContract` model (src/dataverse_contracts/models/contracts.py).
`replaced_contract` is a nullable self-referencing foreign key (held here
as the id of the replacing row); the four date columns are nullable;
`hours_worked` stands for the `presenterhourlycontract__hours_worked`
join, NULL when the contract has no presenter specialization (the decimal
is scaled to an integer). -/
structure BaseContract where
  replaced_contract : Option Nat
  signed_at : Option Int
  issue_at : Option Int
  expire_at : Option Int
  terminated_at : Option Int
  hours_worked : Option Int
deriving DecidableEq, Repr

/-- `BaseContractQuerySet.annotate_status` (contracts.py lines 12-54):
the SQL `Case` expression over the contract's columns at today's date,
with the seven branches in source order (`replaced`, `draft`,
`suspended`, `completed`, `partially_completed`, `early_completed`,
default `active`). -/
def contractStatus (c : BaseContract) (today : Int) : String :=
  if c.replaced_contract.isSome then "replaced"
  else if c.signed_at.isNone then "draft"
  else if c.issue_at.isSome && optGt c.issue_at today then "suspended"
  else if c.expire_at.isSome && optLt c.expire_at today then "completed"
  else if c.expire_at.isSome && optLt c.expire_at today
      && optGt c.hours_worked 0 then "partially_completed"
  else if c.terminated_at.isSome then "early_completed"
  else "active"

/-- A contract signed on day 1 that runs from day 2 to day 200. -/
def sampleContract : BaseContract :=
  { replaced_contract := none, signed_at := some 1, issue_at := some 2,
    expire_at := some 200, terminated_at := none, hours_worked := some 40 }

/-- An unsigned contract already superseded by contract 7. -/
def replacedDraftContract : BaseContract :=
  { replaced_contract := some 7, signed_at := none, issue_at := none,
    expire_at := none, terminated_at := none, hours_worked := none }

/-- C3 counterexample: an unsigned contract whose `replaced_contract` is
set is annotated `replaced`, not `draft`, and `replaced` is outside the
four values the claim allows. -/
theorem C3_counterexample :
    replacedDraftContract.signed_at = none ∧
    contractStatus replacedDraftContract 10 = "replaced" ∧
    contractStatus replacedDraftContract 10 ≠ "draft" := by
  decide

/-- C3 amended: the annotation yields one of
replaced/draft/suspended/completed/early_completed/active, decided in
that order: `replaced_contract` set ⇒ `replaced`; else `signed_at` unset
⇒ `draft`; else `issue_at` set and after today ⇒ `suspended`; else
`expire_at` set and before today ⇒ `completed`; else `terminated_at` set
⇒ `early_completed`; else `active`. -/
theorem C3_contract_status_rules (c : BaseContract) (today : Int) :
    (c.replaced_contract.isSome = true → contractStatus c today = "replaced") ∧
    (c.replaced_contract = none → c.signed_at = none →
      contractStatus c today = "draft") ∧
    (c.replaced_contract = none → c.signed_at.isSome = true →
      optGt c.issue_at today = true → contractStatus c today = "suspended") ∧
    (c.replaced_contract = none → c.signed_at.isSome = true →
      optGt c.issue_at today = false → optLt c.expire_at today = true →
      contractStatus c today = "completed") ∧
    (c.replaced_contract = none → c.signed_at.isSome = true →
      optGt c.issue_at today = false → optLt c.expire_at today = false →
      c.terminated_at.isSome = true → contractStatus c today = "early_completed") ∧
    (c.replaced_contract = none → c.signed_at.isSome = true →
      optGt c.issue_at today = false → optLt c.expire_at today = false →
      c.terminated_at = none → contractStatus c today = "active") := by
  refine ⟨?_, ?_, ?_, ?_, ?_, ?_⟩
  · intro hr
    simp [contractStatus, hr]
  · intro hr hs
    simp [contractStatus, hr, hs]
  · intro hr hs hi
    have hin : c.issue_at.isSome = true := by
      cases hio : c.issue_at with
      | none => rw [hio] at hi; simp [optGt] at hi
      | some v => rfl
    have h1 : c.replaced_contract.isSome = false := by simp [hr]
    have h2 : c.signed_at.isNone = false := by
      cases hso : c.signed_at with
      | none => rw [hso] at hs; simp at hs
      | some v => rfl
    simp [contractStatus, h1, h2, hin, hi]
  · intro hr hs hi he
    have hen : c.expire_at.isSome = true := by
      cases heo : c.expire_at with
      | none => rw [heo] at he; simp [optLt] at he
      | some v => rfl
    simp only [contractStatus, hr, hs, hi, he, hen, Option.isSome_none,
      Bool.and_false, Bool.false_and, Bool.and_true, Bool.true_and,
      Option.isSome_some]
    have h1 : c.replaced_contract.isSome = false := by simp [hr]
    have h2 : c.signed_at.isNone = false := by
      cases hso : c.signed_at with
      | none => rw [hso] at hs; simp at hs
      | some v => rfl
    simp [h1, h2, hi, hen, he]
  · intro hr hs hi he ht
    have h1 : c.replaced_contract.isSome = false := by simp [hr]
    have h2 : c.signed_at.isNone = false := by
      cases hso : c.signed_at with
      | none => rw [hso] at hs; simp at hs
      | some v => rfl
    simp [contractStatus, h1, h2, hi, he, ht]
  · intro hr hs hi he ht
    have h1 : c.replaced_contract.isSome = false := by simp [hr]
    have h2 : c.signed_at.isNone = false := by
      cases hso : c.signed_at with
      | none => rw [hso] at hs; simp at hs
      | some v => rfl
    simp [contractStatus, h1, h2, hi, he, ht]

/-- Closed instance of the amended C3 at `sampleContract`, day 10. -/
theorem C3_witness :
    (sampleContract.replaced_contract.isSome = true →
      contractStatus sampleContract 10 = "replaced") ∧
    (sampleContract.replaced_contract = none → sampleContract.signed_at = none →
      contractStatus sampleContract 10 = "draft") ∧
    (sampleContract.replaced_contract = none → sampleContract.signed_at.isSome = true →
      optGt sampleContract.issue_at 10 = true →
      contractStatus sampleContract 10 = "suspended") ∧
    (sampleContract.replaced_contract = none → sampleContract.signed_at.isSome = true →
      optGt sampleContract.issue_at 10 = false → optLt sampleContract.expire_at 10 = true →
      contractStatus sampleContract 10 = "completed") ∧
    (sampleContract.replaced_contract = none → sampleContract.signed_at.isSome = true →
      optGt sampleContract.issue_at 10 = false → optLt sampleContract.expire_at 10 = false →
      sampleContract.terminated_at.isSome = true →
      contractStatus sampleContract 10 = "early_completed") ∧
    (sampleContract.replaced_contract = none → sampleContract.signed_at.isSome = true →
      optGt sampleContract.issue_at 10 = false → optLt sampleContract.expire_at 10 = false →
      sampleContract.terminated_at = none →
      contractStatus sampleContract 10 = "active") :=
  C3_contract_status_rules sampleContract 10

/-- C8: the `partially_completed` branch can never fire: its condition
(expired and positive hours) strictly strengthens the condition of the
`completed` branch placed before it in the `Case`, so the annotation
never yields `partially_completed`. -/
theorem C8_partially_completed_unreachable (c : BaseContract) (today : Int) :
    contractStatus c today ≠ "partially_completed" := by
  unfold contractStatus
  split_ifs with h1 h2 h3 h4 h5 h6 <;> simp_all

/-- Witness for C8 at `sampleContract`, day 10. -/
theorem C8_witness : contractStatus sampleContract 10 ≠ "partially_completed" :=
  C8_partially_completed_unreachable sampleContract 10

/-- `EducationThread` model (src/dataverse_threads/models/education_threads.py).
`start_date` and `end_date` are NOT NULL date columns in the database,
but a Python instance may still carry `None` there before validation, so
they are embedded as options; the two `is_open_*` flags are booleans. -/
structure EducationThread where
  start_date : Option Int
  end_date : Option Int
  is_open_start : Bool
  is_open_end : Bool
deriving DecidableEq, Repr

/-- `EducationThreadQuerySet.annotate_status`
(education_threads.py lines 12-53): the SQL `Case` expression over the
flags and dates at today's date, with the six branches in source order
and the `unknown` fallback. -/
def threadStatus (t : EducationThread) (today : Int) : String :=
  if t.is_open_start && t.is_open_end then "open"
  else if t.is_open_start && !t.is_open_end then "open_start"
  else if !t.is_open_start && t.is_open_end then "open_end"
  else if !t.is_open_start && !t.is_open_end
      && optLe t.start_date today && optGe t.end_date today then "active"
  else if !t.is_open_start && optGt t.start_date today then "upcoming"
  else if !t.is_open_end && optLt t.end_date today then "expired"
  else "unknown"

/-- `EducationThread.clean` (education_threads.py lines 172-185): raises
`ValidationError` keyed on the missing date field when the corresponding
open flag is unset; otherwise falls through and returns `None`.  The
Python method only reads fields, so it is embedded as a pure function on
the instance: it cannot change any field. -/
def EducationThread.clean (t : EducationThread) : Except (String × String) Unit :=
  if !t.is_open_start && t.start_date.isNone then
    Except.error ("start_date", "Date of start is required when the open-start flag is unset")
  else if !t.is_open_end && t.end_date.isNone then
    Except.error ("end_date", "Date of end is required when the open-end flag is unset")
  else Except.ok ()

/-- Whether `clean` raises `ValidationError`. -/
def cleanRaises (t : EducationThread) : Bool :=
  match t.clean with
  | Except.error _ => true
  | Except.ok _ => false

/-- A thread running from day 1 to day 10 with both bounds fixed. -/
def sampleThread : EducationThread :=
  { start_date := some 1, end_date := some 10,
    is_open_start := false, is_open_end := false }

/-- A degenerate but storable thread whose end (day 1) precedes its start
(day 5); nothing in the model forbids it. -/
def invertedThread : EducationThread :=
  { start_date := some 5, end_date := some 1,
    is_open_start := false, is_open_end := false }

/-- C2 counterexample: at day 3 the `invertedThread` has both flags
false and `end_date < today`, so the claim requires status `expired`;
the annotation instead yields `upcoming`, because the `upcoming` branch
(`start_date > today`) precedes the `expired` one in the `Case`. -/
theorem C2_counterexample :
    invertedThread.is_open_start = false ∧
    invertedThread.is_open_end = false ∧
    optLt invertedThread.end_date 3 = true ∧
    threadStatus invertedThread 3 = "upcoming" ∧
    threadStatus invertedThread 3 ≠ "expired" := by
  decide

/-- C2 amended: flag combinations give open/open_start/open_end as
claimed; with both flags false the status is `active` if
start_date ≤ today ≤ end_date, `upcoming` if start_date > today, and
`expired` if end_date < today AND start_date ≤ today (the `upcoming`
branch precedes the `expired` one when both conditions hold). -/
theorem C2_thread_status_rules (t : EducationThread) (today : Int) :
    (t.is_open_start = true → t.is_open_end = true →
      threadStatus t today = "open") ∧
    (t.is_open_start = true → t.is_open_end = false →
      threadStatus t today = "open_start") ∧
    (t.is_open_start = false → t.is_open_end = true →
      threadStatus t today = "open_end") ∧
    (t.is_open_start = false → t.is_open_end = false →
      optLe t.start_date today = true → optGe t.end_date today = true →
      threadStatus t today = "active") ∧
    (t.is_open_start = false → t.is_open_end = false →
      optGt t.start_date today = true → threadStatus t today = "upcoming") ∧
    (t.is_open_start = false → t.is_open_end = false →
      optLe t.start_date today = true → optLt t.end_date today = true →
      threadStatus t today = "expired") := by
  refine ⟨?_, ?_, ?_, ?_, ?_, ?_⟩
  · intro h1 h2
    simp [threadStatus, h1, h2]
  · intro h1 h2
    simp [threadStatus, h1, h2]
  · intro h1 h2
    simp [threadStatus, h1, h2]
  · intro h1 h2 h3 h4
    simp [threadStatus, h1, h2, h3, h4]
  · intro h1 h2 h3
    have h4 : optLe t.start_date today = false := by
      cases hsd : t.start_date with
      | none => rw [hsd] at h3; simp [optGt] at h3
      | some s =>
        rw [hsd] at h3
        simp only [optGt, decide_eq_true_eq] at h3
        simp only [optLe, decide_eq_false_iff_not]
        omega
    simp [threadStatus, h1, h2, h3, h4]
  · intro h1 h2 h3 h4
    have h5 : optGe t.end_date today = false := by
      cases hed : t.end_date with
      | none => rw [hed] at h4; simp [optLt] at h4
      | some e =>
        rw [hed] at h4
        simp only [optLt, decide_eq_true_eq] at h4
        simp only [optGe, decide_eq_false_iff_not]
        omega
    have h6 : optGt t.start_date today = false := by
      cases hsd : t.start_date with
      | none => simp [optGt]
      | some s =>
        rw [hsd] at h3
        simp only [optLe, decide_eq_true_eq] at h3
        simp only [optGt, decide_eq_false_iff_not]
        omega
    simp [threadStatus, h1, h2, h3, h4, h5, h6]

/-- Closed instance of the amended C2 at `sampleThread`, day 3. -/
theorem C2_witness :
    (sampleThread.is_open_start = true → sampleThread.is_open_end = true →
      threadStatus sampleThread 3 = "open") ∧
    (sampleThread.is_open_start = true → sampleThread.is_open_end = false →
      threadStatus sampleThread 3 = "open_start") ∧
    (sampleThread.is_open_start = false → sampleThread.is_open_end = true →
      threadStatus sampleThread 3 = "open_end") ∧
    (sampleThread.is_open_start = false → sampleThread.is_open_end = false →
      optLe sampleThread.start_date 3 = true → optGe sampleThread.end_date 3 = true →
      threadStatus sampleThread 3 = "active") ∧
    (sampleThread.is_open_start = false → sampleThread.is_open_end = false →
      optGt sampleThread.start_date 3 = true → threadStatus sampleThread 3 = "upcoming") ∧
    (sampleThread.is_open_start = false → sampleThread.is_open_end = false →
      optLe sampleThread.start_date 3 = true → optLt sampleThread.end_date 3 = true →
      threadStatus sampleThread 3 = "expired") :=
  C2_thread_status_rules sampleThread 3

/-- C6: when both date fields are present (as the NOT NULL columns
guarantee for stored rows), the annotation always lands in one of the
six real statuses; the `unknown` fallback is unreachable. -/
theorem C6_no_unknown (t : EducationThread) (today : Int)
    (hs : t.start_date.isSome = true) (he : t.end_date.isSome = true) :
    threadStatus t today ∈
      (["open", "open_start", "open_end", "active", "upcoming", "expired"] :
        List String) := by
  rcases t with ⟨sd, ed, os, oe⟩
  rcases Option.isSome_iff_exists.mp hs with ⟨s, hs'⟩
  rcases Option.isSome_iff_exists.mp he with ⟨e, he'⟩
  subst hs'
  subst he'
  cases os <;> cases oe <;>
    simp only [threadStatus, Bool.and_self, Bool.not_true, Bool.not_false,
      Bool.false_and, Bool.true_and, Bool.and_false, Bool.and_true,
      if_true, if_false]
  case true.true => simp
  case true.false => simp
  case false.true => simp
  case false.false =>
    by_cases h1 : s ≤ today
    · by_cases h2 : today ≤ e
      · simp [optLe, optGe, h1, h2]
      · have h3 : e < today := by omega
        simp [optLe, optGe, optGt, optLt, h1, h2, h3]
    · have h4 : today < s := by omega
      simp [optLe, optGe, optGt, optLt, h1, h4]

/-- Witness for C6 at `sampleThread`, day 3. -/
theorem C6_witness :
    threadStatus sampleThread 3 ∈
      (["open", "open_start", "open_end", "active", "upcoming", "expired"] :
        List String) :=
  C6_no_unknown sampleThread 3 (by decide) (by decide)

/-- C10: `clean` raises `ValidationError` exactly when a date is missing
while its open flag is unset; otherwise it returns normally.  Being a
pure function of the instance, it alters no field. -/
theorem C10_clean_validation (t : EducationThread) :
    (cleanRaises t = true ↔
      ((t.is_open_start = false ∧ t.start_date = none) ∨
       (t.is_open_end = false ∧ t.end_date = none))) ∧
    (cleanRaises t = false → t.clean = Except.ok ()) := by
  rcases t with ⟨sd, ed, os, oe⟩
  cases os <;> cases oe <;> cases sd <;> cases ed <;>
    simp [cleanRaises, EducationThread.clean]

/-- Closed instance of C10 at `sampleThread`. -/
theorem C10_witness :
    (cleanRaises sampleThread = true ↔
      ((sampleThread.is_open_start = false ∧ sampleThread.start_date = none) ∨
       (sampleThread.is_open_end = false ∧ sampleThread.end_date = none))) ∧
    (cleanRaises sampleThread = false → sampleThread.clean = Except.ok ()) :=
  C10_clean_validation sampleThread
